import Mathlib

/-!
Verification of the placement utilities of the redux-tooltip repository
(src/utils.js) against its natural-language specification.

Modelling conventions:
* A JavaScript number is a rational or the special value NaN (`JNum`).
  The arithmetic the utilities perform (addition, subtraction,
  multiplication by 0.5, Math.max, Math.min, `<`) is exact on the
  rationals, and NaN propagates through arithmetic and makes every
  comparison false, exactly as in JS.  Infinities never arise in the
  modelled code paths and are not represented.
* A property value of a rectangle-like JS object is `JVal`: a number,
  a pixel string produced by the template `${n}px` (kept symbolic as
  `JVal.pxStr n`, which is exact because JS number-to-string
  serialisation round-trips through `parseFloat` after the `px` suffix
  is removed), an arbitrary other string, or `undefined` (also standing
  for an absent property, indistinguishable from `undefined` under the
  `typeof` checks the code performs).
* The browser globals read by `position` and `defaultArea`
  (window.pageYOffset/pageXOffset, document.documentElement scroll and
  client offsets, window.innerWidth/innerHeight) are gathered in an
  explicit `Env`; a DOM element is modelled by the bounding client rect
  it reports (`Elem`).
-/

namespace ReduxTooltip

/-- A JavaScript number: a rational value or NaN. -/
inductive JNum where
  | nan : JNum
  | val : ℚ → JNum
deriving DecidableEq

/-- JS `+` on numbers: NaN propagates. -/
def JNum.add : JNum → JNum → JNum
  | .val a, .val b => .val (a + b)
  | _, _ => .nan

/-- JS `-` on numbers: NaN propagates. -/
def JNum.sub : JNum → JNum → JNum
  | .val a, .val b => .val (a - b)
  | _, _ => .nan

/-- JS `* 0.5` (exact): NaN propagates. -/
def JNum.half : JNum → JNum
  | .val a => .val (a / 2)
  | .nan => .nan

/-- JS `Math.max` on two numbers: NaN if either argument is NaN. -/
def JNum.max : JNum → JNum → JNum
  | .val a, .val b => .val (Max.max a b)
  | _, _ => .nan

/-- JS `Math.min` on two numbers: NaN if either argument is NaN. -/
def JNum.min : JNum → JNum → JNum
  | .val a, .val b => .val (Min.min a b)
  | _, _ => .nan

/-- JS `<` on numbers: false whenever either side is NaN. -/
def JNum.lt : JNum → JNum → Bool
  | .val a, .val b => decide (a < b)
  | _, _ => false

/-- JS `a || b` for numbers: `a` is falsy exactly when it is 0, -0 or NaN. -/
def jsOr (a b : JNum) : JNum :=
  match a with
  | .val q => if q = 0 then b else a
  | .nan => b

/-- Value of a decimal digit string (most significant first). -/
def digitsVal (ds : List Char) : ℕ :=
  ds.foldl (fun n c => 10 * n + (c.toNat - Char.toNat '0')) 0

/-- Parse a leading unsigned decimal literal (`digits`, `digits.digits`,
`digits.` or `.digits`) from a character list, returning its value and the
unconsumed rest, or `none` when no digit is found before anything else.
Exponent and hexadecimal forms and the literal `Infinity` are outside the
model (nothing in the modelled code produces or consumes them, and `JNum`
has no infinities). -/
def parseUnsigned (cs : List Char) : Option (ℚ × List Char) :=
  let ip := cs.takeWhile Char.isDigit
  let rest := cs.dropWhile Char.isDigit
  match rest with
  | '.' :: rest2 =>
    let fp := rest2.takeWhile Char.isDigit
    let rest3 := rest2.dropWhile Char.isDigit
    if ip.isEmpty && fp.isEmpty then none
    else some ((digitsVal ip : ℚ) + (digitsVal fp : ℚ) / ((10 : ℚ) ^ fp.length), rest3)
  | _ => if ip.isEmpty then none else some ((digitsVal ip : ℚ), rest)

/-- Parse a leading signed decimal literal. -/
def parseSigned (cs : List Char) : Option (ℚ × List Char) :=
  match cs with
  | '-' :: rest => (parseUnsigned rest).map (fun p => (-p.1, p.2))
  | '+' :: rest => parseUnsigned rest
  | _ => parseUnsigned cs

/-- JS `parseFloat`: skip leading whitespace, parse the longest numeric
prefix, NaN when there is none. -/
def parseFloatJ (s : String) : JNum :=
  match parseSigned (s.data.dropWhile Char.isWhitespace) with
  | some p => .val p.1
  | none => .nan

/-- JS `String.prototype.replace('px', '')`: remove the first occurrence
of the substring `px`. -/
def removeFirstPx : List Char → List Char
  | [] => []
  | 'p' :: 'x' :: rest => rest
  | c :: rest => c :: removeFirstPx rest

/-- `s.replace('px', '')` on a string value. -/
def replaceFirstPx (s : String) : String :=
  String.mk (removeFirstPx s.data)

/-- JS `ToNumber` on a string (as applied by `Math.max`/`Math.min` and
mixed `<`): trim whitespace, the empty string is 0, otherwise the whole
remainder must be a decimal literal, else NaN. -/
def jsStrToNumber (s : String) : JNum :=
  let t := ((s.data.dropWhile Char.isWhitespace).reverse.dropWhile Char.isWhitespace).reverse
  if t.isEmpty then .val 0
  else
    match parseSigned t with
    | some (q, []) => .val q
    | _ => .nan

/-- A JS property value as it occurs on the rectangle-like objects of the
library: a number, the pixel string `${n}px` (kept symbolic), any other
string, or `undefined` / absent. -/
inductive JVal where
  | num : JNum → JVal
  | pxStr : JNum → JVal
  | str : String → JVal
  | undef : JVal
deriving DecidableEq

/-- JS `typeof v === 'number'` (true for NaN as well). -/
def JVal.isNum : JVal → Bool
  | .num _ => true
  | _ => false

/-- JS `ToNumber` coercion of a property value.  `${n}px` never parses as
a whole number (the `px` suffix remains), hence NaN; `undefined` coerces
to NaN. -/
def JVal.toNumber : JVal → JNum
  | .num n => n
  | .pxStr _ => .nan
  | .str s => jsStrToNumber s
  | .undef => .nan

/-- A fully numeric rectangle, as returned by `position` (the source's
`getBoundingClientRect` output shifted by the scroll offsets). -/
structure NRect where
  top : JNum
  left : JNum
  right : JNum
  bottom : JNum
  width : JNum
  height : JNum
deriving DecidableEq

/-- A rectangle-like JS object with the six properties the utilities
read; each may hold any JS value. -/
structure JRect where
  top : JVal
  left : JVal
  right : JVal
  bottom : JVal
  width : JVal
  height : JVal
deriving DecidableEq

/-- View a numeric rectangle as a general JS object. -/
def NRect.toJ (r : NRect) : JRect :=
  { top := .num r.top, left := .num r.left, right := .num r.right,
    bottom := .num r.bottom, width := .num r.width, height := .num r.height }

/-- The browser globals the utilities read. -/
structure Env where
  pageYOffset : JNum
  pageXOffset : JNum
  scrollTop : JNum
  clientTop : JNum
  scrollLeft : JNum
  clientLeft : JNum
  innerWidth : JNum
  innerHeight : JNum
deriving DecidableEq

/-- A DOM element, modelled by the bounding client rect it reports. -/
structure Elem where
  box : NRect
deriving DecidableEq

/-- `position(el)` from src/utils.js: shift the element's viewport-relative
bounding box by the window scroll offsets into document space. -/
def position (env : Env) (el : Elem) : NRect :=
  let winTop := (jsOr env.pageYOffset env.scrollTop).sub env.clientTop
  let winLeft := (jsOr env.pageXOffset env.scrollLeft).sub env.clientLeft
  { top := el.box.top.add winTop,
    left := el.box.left.add winLeft,
    right := el.box.right.add winLeft,
    bottom := el.box.bottom.add winTop,
    width := el.box.width,
    height := el.box.height }

/-- `placement(place, tooltip, origin)` from src/utils.js: seed the offset
with the tooltip's width/height, then set the cross-axis property in the
first switch and the main-axis property in the second, each serialised as
a `${...}px` string.  A direction outside the four leaves both unset. -/
def placement (place : String) (env : Env) (tooltip origin : Elem) : JRect :=
  let gap : JNum := .val 12
  let tip := position env tooltip
  let pos := position env origin
  let offset : JRect :=
    { top := .undef, left := .undef, right := .undef, bottom := .undef,
      width := .num tip.width, height := .num tip.height }
  let offset : JRect :=
    match place with
    | "top" | "bottom" =>
      { offset with left := .pxStr ((pos.left.add pos.width.half).sub tip.width.half) }
    | "left" | "right" =>
      { offset with top := .pxStr ((pos.top.add pos.height.half).sub tip.height.half) }
    | _ => offset
  match place with
  | "top" => { offset with top := .pxStr ((pos.top.sub tip.height).sub gap) }
  | "right" => { offset with left := .pxStr (pos.right.add gap) }
  | "bottom" => { offset with top := .pxStr ((pos.top.add pos.height).add gap) }
  | "left" => { offset with left := .pxStr ((pos.left.sub tip.width).sub gap) }
  | _ => offset

/-- Input to `opposite` and `adjust`: a single string or an array of
strings (the only shapes the library is invoked with). -/
inductive DirInput where
  | str : String → DirInput
  | list : List String → DirInput
deriving DecidableEq

/-- `opposite(dir)` from src/utils.js: a non-empty array is replaced by
its first element; the four directions map to their opposites; anything
else throws `Unknown direction: "${dir}"` — modelled as an error carrying
the original offending input. -/
def opposite (dir : DirInput) : Except DirInput String :=
  let place : DirInput :=
    match dir with
    | .list (p :: _) => .str p
    | d => d
  match place with
  | .str "top" => .ok "bottom"
  | .str "bottom" => .ok "top"
  | .str "right" => .ok "left"
  | .str "left" => .ok "right"
  | _ => .error dir

/-- `intersection(area1, area2)` from src/utils.js.  `Math.max`/`Math.min`
and `+` coerce their operands with `ToNumber`; on every call path of the
library the fields read here are already numbers. -/
def intersection (area1 area2 : JRect) : JRect :=
  let top := JNum.max area1.top.toNumber area2.top.toNumber
  let right := JNum.min (area1.left.toNumber.add area1.width.toNumber)
    (area2.left.toNumber.add area2.width.toNumber)
  let bottom := JNum.min (area1.top.toNumber.add area1.height.toNumber)
    (area2.top.toNumber.add area2.height.toNumber)
  let left := JNum.max area1.left.toNumber area2.left.toNumber
  { top := .num top, right := .num right, bottom := .num bottom, left := .num left,
    height := .num (bottom.sub top), width := .num (right.sub left) }

/-- `defaultArea()` from src/utils.js: only `width`/`height`, taken from
the window's inner size. -/
def defaultArea (env : Env) : JRect :=
  { top := .undef, left := .undef, right := .undef, bottom := .undef,
    width := .num env.innerWidth, height := .num env.innerHeight }

/-- One property under `strip`: a string value is replaced by
`parseFloat(value.replace('px', ''))`.  For the pixel string `${n}px` the
`replace` removes its `px` suffix (a serialised number contains no `px`)
and `parseFloat` recovers `n` exactly (JS serialisation round-trips, and
the string `NaN` fails to parse, giving NaN back). -/
def stripVal : JVal → JVal
  | .str s => .num (parseFloatJ (replaceFirstPx s))
  | .pxStr n => .num n
  | v => v

/-- `strip(obj)` from src/utils.js: applied to each of the six
properties; other values pass through unchanged; the input is not
mutated. -/
def strip (r : JRect) : JRect :=
  { top := stripVal r.top, left := stripVal r.left, right := stripVal r.right,
    bottom := stripVal r.bottom, width := stripVal r.width, height := stripVal r.height }

/-- `amend(area)` from src/utils.js: strip, default `top`/`left` to 0 when
not numbers (`typeof`), then derive `right` from `left + width` and
`bottom` from `top + height` when absent and derivable. -/
def amend (area : JRect) : JRect :=
  let d := strip area
  let d := if d.top.isNum then d else { d with top := .num (.val 0) }
  let d := if d.left.isNum then d else { d with left := .num (.val 0) }
  let d := if !d.right.isNum && d.width.isNum then
    { d with right := .num (d.left.toNumber.add d.width.toNumber) } else d
  let d := if !d.bottom.isNum && d.height.isNum then
    { d with bottom := .num (d.top.toNumber.add d.height.toNumber) } else d
  d

/-- JS `<` on the values that reach the comparisons of `overDirs`: after
`amend` (and `intersection`) every compared field is a number or
`undefined`, so the `ToNumber` branch of the JS relational comparison
applies, and any NaN (in particular `undefined`) makes it false.  (The
string-with-string lexicographic branch of JS `<` is unreachable here,
because `strip` has already converted every string field to a number.) -/
def jslt (a b : JVal) : Bool :=
  JNum.lt a.toNumber b.toNumber

/-- `overDirs(tip, el = null)` from src/utils.js: amend the tooltip offset
and the default area, intersect with the element's position when one is
given, then collect the violated edges in the fixed order top, right,
bottom, left. -/
def overDirs (env : Env) (tip : JRect) (el : Option Elem) : List String :=
  let tip := amend tip
  let area0 := amend (defaultArea env)
  let area : JRect :=
    match el with
    | some e => intersection area0 (position env e).toJ
    | none => area0
  (if jslt tip.top area.top then ["top"] else []) ++
  (if jslt area.right tip.right then ["right"] else []) ++
  (if jslt area.bottom tip.bottom then ["bottom"] else []) ++
  (if jslt tip.left area.left then ["left"] else [])

/-- The result of `adjust`: final style offset and the direction used. -/
structure PlaceResult where
  offset : JRect
  place : String
deriving DecidableEq

/-- The errors `adjust` can propagate: the `Unknown direction` throw from
`opposite`, and the TypeError a `push` on a string would raise (the latter
is unreachable: no single-character string is a direction). -/
inductive AdjustErr where
  | invalidDirection : DirInput → AdjustErr
  | typeError : AdjustErr
deriving DecidableEq

/-- The candidate list `adjust` iterates over (and, when the caller passed
an array, the contents of that very array after the call, since the
single-element case `push`es onto it in place): split a string on commas
and trim when `auto`, then append the opposite of the first element when
the list has exactly one element.  With `auto` disabled a string is left
as is, so `place.length` counts its characters and the spread `[...place]`
would enumerate them. -/
def adjustCandidates (place : DirInput) (auto : Bool) : Except AdjustErr (List String) :=
  match place, auto with
  | .str s, true =>
    let l := (s.splitOn ",").map String.trim
    if l.length = 1 then
      match opposite (.list l) with
      | .ok o => .ok (l ++ [o])
      | .error e => .error (.invalidDirection e)
    else .ok l
  | .str s, false =>
    if s.length = 1 then
      match opposite (.str s) with
      | .ok _ => .error .typeError
      | .error e => .error (.invalidDirection e)
    else .ok (s.data.map (fun c => String.mk [c]))
  | .list l, _ =>
    if l.length = 1 then
      match opposite (.list l) with
      | .ok o => .ok (l ++ [o])
      | .error e => .error (.invalidDirection e)
    else .ok l

/-- The `while (0 < tries.length)` loop of `adjust`: try each candidate in
order, remember the first candidate's result, return the current result as
soon as it has no overflow, else the remembered first one (`none` models
the `undefined` returned when the list was empty). -/
def adjustLoop (env : Env) (tooltip origin : Elem) :
    List String → Option PlaceResult → Option PlaceResult
  | [], first => first
  | current :: rest, first =>
    let props := placement current env tooltip origin
    let first : Option PlaceResult :=
      match first with
      | none => some { offset := props, place := current }
      | some f => some f
    if overDirs env props none = [] then some { offset := props, place := current }
    else adjustLoop env tooltip origin rest first

/-- `adjust(place, tooltip, origin, auto = true)` from src/utils.js. -/
def adjust (place : DirInput) (env : Env) (tooltip origin : Elem) (auto : Bool) :
    Except AdjustErr (Option PlaceResult) :=
  match adjustCandidates place auto with
  | .error e => .error e
  | .ok l => .ok (adjustLoop env tooltip origin l none)

/-- A value found in a `name` field: a string, an array of strings, or
absent/undefined. -/
inductive NameVal where
  | strv : String → NameVal
  | list : List String → NameVal
  | absent : NameVal
deriving DecidableEq

/-- JS truthiness of a `name` value: the empty string is falsy, every
array (even the empty one) is truthy, absent/undefined is falsy. -/
def NameVal.truthy : NameVal → Bool
  | .strv s => s ≠ ""
  | .list _ => true
  | .absent => false

/-- The `payload` sub-object of an action. -/
structure PayloadObj where
  name : NameVal
deriving DecidableEq

/-- An action or props object as `resolve` inspects it (`payload` absent
or an object with a `name`; a direct `name`). -/
structure RObj where
  payload : Option PayloadObj
  name : NameVal
deriving DecidableEq

/-- Wrap the selected name value the way the tail of `resolve` does:
a string becomes a one-element array, an array is returned as is. -/
def wrapNames : NameVal → List String
  | .strv s => [s]
  | .list l => l
  | .absent => []

/-- `resolve(obj)` from src/utils.js: `obj && obj.payload &&
obj.payload.name` (truthiness), else `obj && obj.name`, else
`['default']`; then a string is wrapped into a one-element array. -/
def resolve (obj : RObj) : List String :=
  let names : NameVal :=
    if (match obj.payload with
        | some p => p.name.truthy
        | none => false) then
      (match obj.payload with
       | some p => p.name
       | none => .absent)
    else if obj.name.truthy then obj.name
    else .list ["default"]
  wrapNames names

/-- The four direction strings of the library. -/
def dirList : List String := ["top", "right", "bottom", "left"]

/-- Browser state with no scrolling and a 1000 by 1000 viewport. -/
def env0 : Env :=
  { pageYOffset := .val 0, pageXOffset := .val 0, scrollTop := .val 0,
    clientTop := .val 0, scrollLeft := .val 0, clientLeft := .val 0,
    innerWidth := .val 1000, innerHeight := .val 1000 }

/-- A tooltip element of size 30 by 10 at the origin. -/
def tipEl : Elem :=
  ⟨{ top := .val 0, left := .val 0, right := .val 30, bottom := .val 10,
     width := .val 30, height := .val 10 }⟩

/-- The anchor of the spec's worked example:
top 100, left 100, width 50, height 20. -/
def anchorEl : Elem :=
  ⟨{ top := .val 100, left := .val 100, right := .val 150, bottom := .val 120,
     width := .val 50, height := .val 20 }⟩

/-- Claim C4: for every direction, `opposite` is an involution
(top maps to bottom and back, right maps to left and back), and on a
non-empty list whose head is a direction it uses only that head. -/
theorem opposite_involutive_and_uses_head :
    (∀ d, d ∈ dirList → ∃ e, opposite (.str d) = .ok e ∧ opposite (.str e) = .ok d) ∧
    (∀ d rest, d ∈ dirList → opposite (.list (d :: rest)) = opposite (.str d)) := by
  constructor
  · intro d hd
    simp only [dirList, List.mem_cons, List.mem_singleton, List.not_mem_nil, or_false] at hd
    rcases hd with rfl | rfl | rfl | rfl
    · exact ⟨"bottom", rfl, rfl⟩
    · exact ⟨"left", rfl, rfl⟩
    · exact ⟨"top", rfl, rfl⟩
    · exact ⟨"right", rfl, rfl⟩
  · intro d rest hd
    simp only [dirList, List.mem_cons, List.mem_singleton, List.not_mem_nil, or_false] at hd
    rcases hd with rfl | rfl | rfl | rfl <;> rfl

/-- Witness for C4 at the directions top (involution) and left
(head-only list behaviour). -/
theorem opposite_involutive_and_uses_head_w :
    (∃ e, opposite (.str "top") = .ok e ∧ opposite (.str e) = .ok "top") ∧
    opposite (.list ["left", "top"]) = opposite (.str "left") :=
  ⟨opposite_involutive_and_uses_head.1 "top" (by decide),
   opposite_involutive_and_uses_head.2 "left" ["top"] (by decide)⟩

/-- Claim C5: `opposite` fails, with the error carrying the offending
input, on every string that is not a direction, on the empty list, and on
every list whose first element is not a direction; in particular on `[]`
and on the string `diagonal`. -/
theorem opposite_invalid_errors :
    (∀ s, s ∉ dirList → opposite (.str s) = .error (.str s)) ∧
    opposite (.list []) = .error (.list []) ∧
    (∀ a rest, a ∉ dirList → opposite (.list (a :: rest)) = .error (.list (a :: rest))) ∧
    opposite (.str "diagonal") = .error (.str "diagonal") := by
  refine ⟨?_, rfl, ?_, rfl⟩
  · intro s hs
    simp only [dirList, List.mem_cons, List.mem_singleton, List.not_mem_nil, or_false,
      not_or] at hs
    obtain ⟨h1, h2, h3, h4⟩ := hs
    unfold opposite
    split <;> simp_all
  · intro a rest ha
    simp only [dirList, List.mem_cons, List.mem_singleton, List.not_mem_nil, or_false,
      not_or] at ha
    obtain ⟨h1, h2, h3, h4⟩ := ha
    unfold opposite
    split <;> simp_all

/-- Witness for C5 at an unrecognized string and a bad list head. -/
theorem opposite_invalid_errors_w :
    opposite (.str "diag") = .error (.str "diag") ∧
    opposite (.list ["x", "top"]) = .error (.list ["x", "top"]) :=
  ⟨opposite_invalid_errors.1 "diag" (by decide),
   opposite_invalid_errors.2.2.1 "x" ["top"] (by decide)⟩

/-- Claim C7: on two rectangles fully specified with numeric
top/left/width/height and with right/bottom equal to the derived sums,
`intersection` returns the max of tops and lefts, the min of rights and
bottoms, and width/height as the (possibly negative, unclamped)
differences; and it is commutative on all six fields. -/
theorem intersection_minmax_comm (t1 l1 w1 h1 t2 l2 w2 h2 : ℚ) :
    intersection
      { top := .num (.val t1), left := .num (.val l1), right := .num (.val (l1 + w1)),
        bottom := .num (.val (t1 + h1)), width := .num (.val w1), height := .num (.val h1) }
      { top := .num (.val t2), left := .num (.val l2), right := .num (.val (l2 + w2)),
        bottom := .num (.val (t2 + h2)), width := .num (.val w2), height := .num (.val h2) } =
      { top := .num (.val (max t1 t2)), left := .num (.val (max l1 l2)),
        right := .num (.val (min (l1 + w1) (l2 + w2))),
        bottom := .num (.val (min (t1 + h1) (t2 + h2))),
        width := .num (.val (min (l1 + w1) (l2 + w2) - max l1 l2)),
        height := .num (.val (min (t1 + h1) (t2 + h2) - max t1 t2)) } ∧
    intersection
      { top := .num (.val t1), left := .num (.val l1), right := .num (.val (l1 + w1)),
        bottom := .num (.val (t1 + h1)), width := .num (.val w1), height := .num (.val h1) }
      { top := .num (.val t2), left := .num (.val l2), right := .num (.val (l2 + w2)),
        bottom := .num (.val (t2 + h2)), width := .num (.val w2), height := .num (.val h2) } =
    intersection
      { top := .num (.val t2), left := .num (.val l2), right := .num (.val (l2 + w2)),
        bottom := .num (.val (t2 + h2)), width := .num (.val w2), height := .num (.val h2) }
      { top := .num (.val t1), left := .num (.val l1), right := .num (.val (l1 + w1)),
        bottom := .num (.val (t1 + h1)), width := .num (.val w1), height := .num (.val h1) } := by
  constructor
  · rfl
  · simp [intersection, JVal.toNumber, JNum.max, JNum.min, JNum.add, JNum.sub,
      max_comm, min_comm]

/-- Claim C6: amending a rectangle with numeric top/left/width/height and
absent right/bottom derives right = left + width and bottom = top +
height; a top or left that is still not a number after stripping is
filled with 0; and width/height are never derived (they always survive
from the stripped input unchanged). -/
theorem amend_completes :
    (∀ t l w h : JNum,
      amend { top := .num t, left := .num l, right := .undef, bottom := .undef,
              width := .num w, height := .num h } =
        { top := .num t, left := .num l, right := .num (l.add w),
          bottom := .num (t.add h), width := .num w, height := .num h }) ∧
    (∀ r : JRect, (strip r).top.isNum = false → (amend r).top = .num (.val 0)) ∧
    (∀ r : JRect, (strip r).left.isNum = false → (amend r).left = .num (.val 0)) ∧
    (∀ r : JRect, (amend r).width = (strip r).width ∧ (amend r).height = (strip r).height) := by
  refine ⟨fun t l w h => rfl, ?_, ?_, ?_⟩
  · intro r h
    simp only [amend]
    (repeat' split) <;> simp_all
  · intro r h
    simp only [amend]
    (repeat' split) <;> simp_all
  · intro r
    simp only [amend]
    (repeat' split) <;> exact ⟨rfl, rfl⟩

/-- Witness for C6: a fully absent rectangle gets top and left filled
with 0. -/
theorem amend_completes_w :
    (amend { top := .undef, left := .undef, right := .undef, bottom := .undef,
             width := .undef, height := .undef }).top = .num (.val 0) ∧
    (amend { top := .undef, left := .undef, right := .undef, bottom := .undef,
             width := .undef, height := .undef }).left = .num (.val 0) :=
  ⟨amend_completes.2.1
      { top := .undef, left := .undef, right := .undef, bottom := .undef,
        width := .undef, height := .undef } (by decide),
   amend_completes.2.2.1
      { top := .undef, left := .undef, right := .undef, bottom := .undef,
        width := .undef, height := .undef } (by decide)⟩

/-- Claim C10: a top (or left) holding a string that does not parse to a
number is turned into NaN by `strip`; `amend` keeps the NaN (NaN passes
the `typeof number` check, so the 0 default is not applied) and the
derived bottom (or right) is NaN as well. -/
theorem strip_amend_nan_propagation (s : String)
    (hs : parseFloatJ (replaceFirstPx s) = JNum.nan) (l w t h : JNum) :
    ((strip { top := .str s, left := .num l, right := .undef, bottom := .undef,
              width := .num w, height := .num h }).top = .num .nan ∧
     (amend { top := .str s, left := .num l, right := .undef, bottom := .undef,
              width := .num w, height := .num h }).top = .num .nan ∧
     (amend { top := .str s, left := .num l, right := .undef, bottom := .undef,
              width := .num w, height := .num h }).bottom = .num .nan) ∧
    ((strip { top := .num t, left := .str s, right := .undef, bottom := .undef,
              width := .num w, height := .num h }).left = .num .nan ∧
     (amend { top := .num t, left := .str s, right := .undef, bottom := .undef,
              width := .num w, height := .num h }).left = .num .nan ∧
     (amend { top := .num t, left := .str s, right := .undef, bottom := .undef,
              width := .num w, height := .num h }).right = .num .nan) := by
  refine ⟨⟨?_, ?_, ?_⟩, ⟨?_, ?_, ?_⟩⟩ <;>
    simp [strip, stripVal, amend, hs, JVal.isNum, JVal.toNumber, JNum.add]

/-- Witness for C10 at the unparsable string `abc`. -/
theorem strip_amend_nan_propagation_w :
    parseFloatJ (replaceFirstPx "abc") = JNum.nan ∧
    (amend { top := .str "abc", left := .num (.val 1), right := .undef, bottom := .undef,
             width := .num (.val 2), height := .num (.val 3) }).bottom = .num .nan :=
  ⟨by decide,
   (strip_amend_nan_propagation "abc" (by decide) (.val 1) (.val 2) (.val 0) (.val 3)).1.2.2⟩

unseal Rat.add Rat.sub Rat.mul Rat.inv in
/-- Claim C2 counterexample: at the spec's worked example (anchor at
top 100, left 100, width 50, height 20; tooltip 30 by 10; no scrolling)
the code computes left = 100 + 50/2 - 30/2 = 110, serialised "110px",
so the claimed left = "105px" is false. -/
theorem placement_example_cex :
    (placement "top" env0 tipEl anchorEl).left = .pxStr (.val 110) ∧
    (placement "top" env0 tipEl anchorEl).left ≠ .pxStr (.val 105) := by
  constructor <;> decide

unseal Rat.add Rat.sub Rat.mul Rat.inv in
/-- Claim C2 (amended: at the worked example the cross-axis value is
left = "110px", not "105px"): for each direction, `placement` copies the
tooltip's width and height, centers on the cross axis
(left = pos.left + pos.width/2 - tip.width/2 for top/bottom,
top = pos.top + pos.height/2 - tip.height/2 for left/right) and places on
the main axis with gap 12 (top: pos.top - tip.height - 12; bottom:
pos.top + pos.height + 12; right: pos.right + 12; left:
pos.left - tip.width - 12), serialising values as pixel strings; the
worked example yields left = "110px" and top = "78px". -/
theorem placement_formulas (env : Env) (tooltip origin : Elem) :
    placement "top" env tooltip origin =
      { top := .pxStr (((position env origin).top.sub (position env tooltip).height).sub
          (.val 12)),
        left := .pxStr (((position env origin).left.add
          (position env origin).width.half).sub (position env tooltip).width.half),
        right := .undef, bottom := .undef,
        width := .num (position env tooltip).width,
        height := .num (position env tooltip).height } ∧
    placement "bottom" env tooltip origin =
      { top := .pxStr (((position env origin).top.add (position env origin).height).add
          (.val 12)),
        left := .pxStr (((position env origin).left.add
          (position env origin).width.half).sub (position env tooltip).width.half),
        right := .undef, bottom := .undef,
        width := .num (position env tooltip).width,
        height := .num (position env tooltip).height } ∧
    placement "right" env tooltip origin =
      { top := .pxStr (((position env origin).top.add
          (position env origin).height.half).sub (position env tooltip).height.half),
        left := .pxStr ((position env origin).right.add (.val 12)),
        right := .undef, bottom := .undef,
        width := .num (position env tooltip).width,
        height := .num (position env tooltip).height } ∧
    placement "left" env tooltip origin =
      { top := .pxStr (((position env origin).top.add
          (position env origin).height.half).sub (position env tooltip).height.half),
        left := .pxStr (((position env origin).left.sub (position env tooltip).width).sub
          (.val 12)),
        right := .undef, bottom := .undef,
        width := .num (position env tooltip).width,
        height := .num (position env tooltip).height } ∧
    (placement "top" env0 tipEl anchorEl).left = .pxStr (.val 110) ∧
    (placement "top" env0 tipEl anchorEl).top = .pxStr (.val 78) :=
  ⟨rfl, rfl, rfl, rfl, by decide, by decide⟩

/-- The amended default area: top and left filled with 0, right and
bottom derived from the window's inner size. -/
theorem amend_defaultArea (env : Env) :
    amend (defaultArea env) =
      { top := .num (.val 0), left := .num (.val 0),
        right := .num ((JNum.val 0).add env.innerWidth),
        bottom := .num ((JNum.val 0).add env.innerHeight),
        width := .num env.innerWidth, height := .num env.innerHeight } := rfl

unseal Rat.add Rat.sub Rat.mul Rat.inv in
/-- Claim C3: with no boundary element the boundary is the amended
viewport (top = left = 0, right = width, bottom = height), and `overDirs`
returns, in the fixed order top, right, bottom, left, exactly the edges
whose independent inequality is violated; in a 1000 by 1000 viewport a
tooltip with top = -5 that is otherwise in bounds yields exactly
["top"]. -/
theorem overDirs_default_viewport
    (env : Env) (w h : ℚ) (hw : env.innerWidth = .val w) (hh : env.innerHeight = .val h)
    (tip : JRect) (tt tr tb tl : ℚ)
    (h1 : (amend tip).top = .num (.val tt)) (h2 : (amend tip).right = .num (.val tr))
    (h3 : (amend tip).bottom = .num (.val tb)) (h4 : (amend tip).left = .num (.val tl)) :
    overDirs env tip none =
      (if tt < 0 then ["top"] else []) ++ (if w < tr then ["right"] else []) ++
      (if h < tb then ["bottom"] else []) ++ (if tl < 0 then ["left"] else []) ∧
    overDirs env0
      { top := .num (.val (-5)), left := .num (.val 10), right := .undef, bottom := .undef,
        width := .num (.val 100), height := .num (.val 50) } none = ["top"] := by
  constructor
  · unfold overDirs
    rw [amend_defaultArea, hw, hh]
    simp [jslt, JVal.toNumber, JNum.lt, JNum.add, h1, h2, h3, h4, zero_add]
  · decide

unseal Rat.add Rat.sub Rat.mul Rat.inv in
/-- Witness for C3: a wide tooltip hanging out on the right and past the
left edge of the 1000 by 1000 viewport. -/
theorem overDirs_default_viewport_w :
    (overDirs env0
      { top := .num (.val 20), left := .num (.val (-3)), right := .undef, bottom := .undef,
        width := .num (.val 2000), height := .num (.val 30) } none =
      (if (20 : ℚ) < 0 then ["top"] else []) ++
      (if (1000 : ℚ) < 1997 then ["right"] else []) ++
      (if (1000 : ℚ) < 50 then ["bottom"] else []) ++
      (if (-3 : ℚ) < 0 then ["left"] else [])) ∧
    overDirs env0
      { top := .num (.val (-5)), left := .num (.val 10), right := .undef, bottom := .undef,
        width := .num (.val 100), height := .num (.val 50) } none = ["top"] :=
  overDirs_default_viewport env0 1000 1000 (by decide) (by decide)
    { top := .num (.val 20), left := .num (.val (-3)), right := .undef, bottom := .undef,
      width := .num (.val 2000), height := .num (.val 30) }
    20 1997 50 (-3) (by decide) (by decide) (by decide) (by decide)

/-- Claim C8 counterexample: the field `name` is present with the value
`""`, yet `resolve` returns `["default"]`, not `[""]` — the code tests
JS truthiness, not presence, and the empty string is falsy. -/
theorem resolve_present_cex :
    resolve { payload := none, name := .strv "" } = ["default"] ∧
    resolve { payload := none, name := .strv "" } ≠ [""] := by
  constructor <;> decide

/-- Claim C8 (amended: "present" must be "present and truthy" — a string
name must be non-empty; arrays, even empty ones, are always truthy):
`resolve` returns the wrapped `payload.name` when truthy, else the
wrapped `name` when truthy, else `["default"]`; wrapping turns a string
into a one-element list and passes arrays through.  The three concrete
examples of the claim hold as stated. -/
theorem resolve_name_lookup :
    (∀ (obj : RObj) (p : PayloadObj), obj.payload = some p → p.name.truthy = true →
      resolve obj = wrapNames p.name) ∧
    (∀ obj : RObj,
      (match obj.payload with | some p => p.name.truthy | none => false) = false →
      obj.name.truthy = true → resolve obj = wrapNames obj.name) ∧
    (∀ obj : RObj,
      (match obj.payload with | some p => p.name.truthy | none => false) = false →
      obj.name.truthy = false → resolve obj = ["default"]) ∧
    resolve { payload := none, name := .strv "x" } = ["x"] ∧
    resolve { payload := some ⟨.list ["a", "b"]⟩, name := .absent } = ["a", "b"] ∧
    resolve { payload := none, name := .absent } = ["default"] := by
  refine ⟨?_, ?_, ?_, by decide, by decide, by decide⟩
  · intro obj p hp hn
    simp [resolve, hp, hn]
  · intro obj hp hn
    simp [resolve, hp, hn]
  · intro obj hp hn
    simp [resolve, hp, hn, wrapNames]

/-- Witness for C8 at a truthy payload name and at an absent name. -/
theorem resolve_name_lookup_w :
    resolve { payload := some ⟨.strv "a"⟩, name := .absent } = wrapNames (.strv "a") ∧
    resolve { payload := some ⟨.strv ""⟩, name := .absent } = ["default"] :=
  ⟨resolve_name_lookup.1 { payload := some ⟨.strv "a"⟩, name := .absent } ⟨.strv "a"⟩
      rfl (by decide),
   resolve_name_lookup.2.2.1 { payload := some ⟨.strv ""⟩, name := .absent }
      (by decide) (by decide)⟩

/-- Claim C9: `adjust` appends the opposite direction to a (caller
supplied, or split-produced) candidate list of exactly one element and
leaves lists of any other length unmodified.  In the source the append is
`place.push(...)` on the very array the caller passed, so
`adjustCandidates` on a list input is also the observable content of the
caller's array after the call; for a string input the split list is a
fresh internal array and the third conjunct states that it is processed
identically. -/
theorem adjust_place_mutation :
    (∀ (l : List String) (auto : Bool), l.length ≠ 1 →
      adjustCandidates (.list l) auto = .ok l) ∧
    (∀ (d o : String) (auto : Bool), opposite (.list [d]) = .ok o →
      adjustCandidates (.list [d]) auto = .ok [d, o]) ∧
    (∀ s : String, adjustCandidates (.str s) true =
      adjustCandidates (.list ((s.splitOn ",").map String.trim)) true) := by
  refine ⟨?_, ?_, fun s => rfl⟩
  · intro l auto h
    simp [adjustCandidates, h]
  · intro d o auto h
    simp [adjustCandidates, h]

/-- Witness for C9: a two-element list passes through unchanged and a
singleton gains its opposite. -/
theorem adjust_place_mutation_w :
    adjustCandidates (.list ["top", "left"]) true = .ok ["top", "left"] ∧
    adjustCandidates (.list ["right"]) false = .ok ["right", "left"] :=
  ⟨adjust_place_mutation.1 ["top", "left"] true (by decide),
   adjust_place_mutation.2.1 "right" "left" false rfl⟩

/-- The `while` loop of `adjust`, entered with the first candidate's
result already remembered, returns the result of the first fitting
candidate and falls back to the remembered one. -/
theorem adjustLoop_some (env : Env) (tooltip origin : Elem) (l : List String)
    (f : PlaceResult) :
    adjustLoop env tooltip origin l (some f) =
      some (match l.find?
          (fun c => overDirs env (placement c env tooltip origin) none == []) with
        | some c => { offset := placement c env tooltip origin, place := c }
        | none => f) := by
  induction l with
  | nil => rfl
  | cons c rest ih =>
    by_cases hc : overDirs env (placement c env tooltip origin) none = []
    · simp [adjustLoop, hc, List.find?]
    · have hce : (overDirs env (placement c env tooltip origin) none).isEmpty = false := by
        cases h' : overDirs env (placement c env tooltip origin) none
        · exact absurd h' hc
        · rfl
      simp [adjustLoop, hc, List.find?, hce, ih]

/-- Claim C1: whenever the candidates `adjust` builds (a string split on
commas and trimmed under `auto`, a singleton extended with its opposite)
are `c1 :: rest`, `adjust` returns the offset and direction of the first
candidate, in left-to-right order, whose placement has no overflow
against the default viewport boundary, and the first candidate's result
when every candidate overflows. -/
theorem adjust_first_fit (env : Env) (tooltip origin : Elem) (place : DirInput)
    (auto : Bool) (c1 : String) (rest : List String)
    (h : adjustCandidates place auto = .ok (c1 :: rest)) :
    adjust place env tooltip origin auto =
      .ok (some (match (c1 :: rest).find?
          (fun c => overDirs env (placement c env tooltip origin) none == []) with
        | some c => { offset := placement c env tooltip origin, place := c }
        | none => { offset := placement c1 env tooltip origin, place := c1 })) := by
  unfold adjust
  rw [h]
  by_cases hc : overDirs env (placement c1 env tooltip origin) none = []
  · simp [adjustLoop, hc, List.find?]
  · have hce : (overDirs env (placement c1 env tooltip origin) none).isEmpty = false := by
      cases h' : overDirs env (placement c1 env tooltip origin) none
      · exact absurd h' hc
      · rfl
    simp [adjustLoop, hc, List.find?, hce, adjustLoop_some]

unseal Rat.add Rat.sub Rat.mul Rat.inv in
/-- Witness for C1: the singleton preference ["top"] expands to
["top", "bottom"] and the first candidate already fits in the 1000 by
1000 viewport. -/
theorem adjust_first_fit_w :
    adjustCandidates (.list ["top"]) true = .ok ("top" :: ["bottom"]) ∧
    adjust (.list ["top"]) env0 tipEl anchorEl true =
      .ok (some (match ("top" :: ["bottom"]).find?
          (fun c => overDirs env0 (placement c env0 tipEl anchorEl) none == []) with
        | some c => { offset := placement c env0 tipEl anchorEl, place := c }
        | none => { offset := placement "top" env0 tipEl anchorEl, place := "top" })) :=
  ⟨rfl,
   adjust_first_fit env0 tipEl anchorEl (.list ["top"]) true "top" ["bottom"] rfl⟩

end ReduxTooltip
